import Mathlib

/-!
Verification of scripts/fetch_dye_names.py: a sequential batch HTTP client
with rate limiting, retry-with-backoff, and CSV emission.

Embedding conventions:
- The HTTP endpoint is a pure function from the retry index (the value of
  retry_count at the attempt) to an abstract response outcome.
- The response body is abstracted to the value extracted by
  data.get("fields", \x7b\x7d).get("Name"): an optional string (none when the
  key chain is absent).
- The mutable fetcher object (total_requests, successful_requests,
  failed_requests) is an explicitly threaded FetchState record; the two kinds
  of time.sleep calls are modelled as a counter of pacing delays
  (time.sleep(REQUEST_DELAY) before every attempt) and a chronological list of
  backoff wait durations in time units (time.sleep(wait_time)).
- print output and the actual file writes are not modelled; generate_csv
  returns the list of rows it writes, main returns the rows, final state and
  the sys.exit code.
-/

namespace FetchDyeNames

/-- Configuration constant MAX_RETRIES = 3 (line 42 of the script). -/
def MAX_RETRIES : Nat := 3

/-- Configuration constant LANGUAGES = ["en", "ja", "de", "fr"] (line 34). -/
def LANGUAGES : List String := ["en", "ja", "de", "fr"]

/-- Outcome of one session.get attempt: an HTTP response with a status code
and the optional Name value under the "fields" key of the JSON body, a
requests.exceptions.Timeout, or another requests.exceptions.RequestException
carrying its message. -/
inductive Response where
  | http (status : Nat) (name : Option String)
  | timeout
  | connError (msg : String)
deriving DecidableEq, Repr

/-- The mutable state of a DyeNameFetcher instance, plus the modelled sleeps:
backoff_waits is the chronological list of exponential-backoff sleep durations
(in time units), pacing_delays counts the fixed REQUEST_DELAY sleeps performed
before each attempt. failed_requests entries are (item_id, language, reason)
triples, appended in order. -/
structure FetchState where
  total_requests : Nat
  successful_requests : Nat
  failed_requests : List (Int × String × String)
  backoff_waits : List Nat
  pacing_delays : Nat
deriving DecidableEq, Repr

/-- State of a freshly constructed DyeNameFetcher. -/
def initState : FetchState := ⟨0, 0, [], [], 0⟩

/-- Message of the requests.exceptions.HTTPError raised by
response.raise_for_status() on a 4xx status (other than 404 and 429, which are
handled earlier). The real message also includes the reason phrase and URL; no
claim depends on its exact text. -/
def httpErrorMessage (status : Nat) : String :=
  toString status ++ " Client Error"

/-- DyeNameFetcher.fetch_name (lines 62-145). One pacing sleep and one request
per attempt; 429 and 5xx retry with exponential backoff 2 ^ retry_count while
retry_count < MAX_RETRIES; 404 fails immediately; other 4xx raise via
raise_for_status and are caught as RequestException; timeouts retry without
backoff; a 2xx response succeeds only when the extracted Name is a non-empty
string (Python truthiness). -/
def fetch_name (resp : Nat → Response) (item_id : Int) (language : String)
    (retry_count : Nat) (st0 : FetchState) : Option String × FetchState :=
  let st := { st0 with pacing_delays := st0.pacing_delays + 1,
                       total_requests := st0.total_requests + 1 }
  match resp retry_count with
  | Response.http status name =>
    if status = 429 then
      if _h : retry_count < MAX_RETRIES then
        let wait_time := 2 ^ retry_count
        fetch_name resp item_id language (retry_count + 1)
          { st with backoff_waits := st.backoff_waits ++ [wait_time] }
      else
        (none, { st with failed_requests :=
                   st.failed_requests ++ [(item_id, language, "Rate limit")] })
    else if status = 404 then
      (none, { st with failed_requests :=
                 st.failed_requests ++ [(item_id, language, "Not found")] })
    else if 500 ≤ status then
      if _h : retry_count < MAX_RETRIES then
        let wait_time := 2 ^ retry_count
        fetch_name resp item_id language (retry_count + 1)
          { st with backoff_waits := st.backoff_waits ++ [wait_time] }
      else
        (none, { st with failed_requests :=
                   st.failed_requests ++
                     [(item_id, language, "Server error " ++ toString status)] })
    else if 400 ≤ status then
      (none, { st with failed_requests :=
                 st.failed_requests ++ [(item_id, language, httpErrorMessage status)] })
    else
      match name with
      | some s =>
        if s = "" then
          (none, { st with failed_requests :=
                     st.failed_requests ++ [(item_id, language, "Missing Name field")] })
        else
          (some s, { st with successful_requests := st.successful_requests + 1 })
      | none =>
        (none, { st with failed_requests :=
                   st.failed_requests ++ [(item_id, language, "Missing Name field")] })
  | Response.timeout =>
    if _h : retry_count < MAX_RETRIES then
      fetch_name resp item_id language (retry_count + 1) st
    else
      (none, { st with failed_requests :=
                 st.failed_requests ++ [(item_id, language, "Timeout")] })
  | Response.connError msg =>
    (none, { st with failed_requests :=
               st.failed_requests ++ [(item_id, language, msg)] })
termination_by MAX_RETRIES - retry_count
decreasing_by all_goals omega

/-- The loop body of DyeNameFetcher.fetch_all_languages (lines 157-159),
recursing over the remaining language codes: names[lang] = fetch_name(...). -/
def fetch_langs (endpoint : Int → String → Nat → Response) (item_id : Int) :
    List String → FetchState → List (String × Option String) × FetchState
  | [], st => ([], st)
  | lang :: rest, st =>
    let r := fetch_name (endpoint item_id lang) item_id lang 0 st
    let tl := fetch_langs endpoint item_id rest r.2
    ((lang, r.1) :: tl.1, tl.2)

/-- DyeNameFetcher.fetch_all_languages (lines 147-160): the names dictionary
is modelled as an association list whose keys appear in insertion order, i.e.
in the order of LANGUAGES. -/
def fetch_all_languages (endpoint : Int → String → Nat → Response)
    (item_id : Int) (st : FetchState) : List (String × Option String) × FetchState :=
  fetch_langs endpoint item_id LANGUAGES st

/-- One element of the dye_data list built in main (lines 276-279):
a dict with keys itemID and names. -/
structure DyeRecord where
  itemID : Int
  names : List (String × Option String)
deriving DecidableEq, Repr

/-- One element of the input JSON array: only the presence and value of its
itemID field matter to the script (other keys are ignored). -/
structure DyeEntry where
  itemID : Option Int
deriving DecidableEq, Repr

/-- The item-ID extraction loop of load_dye_data (lines 192-197): entries
missing the itemID key are skipped (with a printed warning, not modelled) and
the rest contribute their itemID in input order. The file-reading and
JSON-parsing failure paths (which call sys.exit(1)) are outside this function;
it receives an already-parsed array. -/
def load_dye_data : List DyeEntry → List Int
  | [] => []
  | d :: rest =>
    match d.itemID with
    | none => load_dye_data rest
    | some i => i :: load_dye_data rest

/-- The batch loop of main (lines 266-279): for each item ID in load order,
fetch all languages and append a record to dye_data. -/
def run_batch (endpoint : Int → String → Nat → Response) :
    List Int → FetchState → List DyeRecord × FetchState
  | [], st => ([], st)
  | item_id :: rest, st =>
    let r := fetch_all_languages endpoint item_id st
    let tl := run_batch endpoint rest r.2
    (⟨item_id, r.1⟩ :: tl.1, tl.2)

/-- Rendering of one cell value by csv.DictWriter: Python None is written as
the empty string. -/
def csvField : Option String → String
  | some s => s
  | none => ""

/-- The cell for a language column (lines 227-230):
dye["names"].get(lang, "") followed by the writer's rendering. The default ""
applies only when the key is absent; a present None value renders as "" via
the writer. -/
def namesGet (names : List (String × Option String)) (lang : String) : String :=
  match names.lookup lang with
  | some v => csvField v
  | none => ""

/-- The fixed fieldnames list (line 217). -/
def CSV_HEADER : List String :=
  ["itemID", "English Name", "Japanese Name", "German Name", "French Name"]

/-- The row written for one dye (lines 224-232); the itemID cell is the
writer's string rendering of the integer. -/
def csvRow (d : DyeRecord) : List String :=
  [toString d.itemID, namesGet d.names "en", namesGet d.names "ja",
   namesGet d.names "de", namesGet d.names "fr"]

/-- generate_csv (lines 202-238), modelled as the list of rows written:
the header followed by one row per dye_data element, in order. -/
def generate_csv (dye_data : List DyeRecord) : List (List String) :=
  CSV_HEADER :: dye_data.map csvRow

/-- main (lines 241-309) on the path where input loading succeeds: load the
item IDs, run the batch from a fresh fetcher, generate the CSV, and exit with
sys.exit(0 if len(fetcher.failed_requests) == 0 else 1). Returns the CSV rows,
the final fetcher state and the exit code. -/
def main (endpoint : Int → String → Nat → Response) (input : List DyeEntry) :
    List (List String) × FetchState × Nat :=
  let item_ids := load_dye_data input
  let r := run_batch endpoint item_ids initState
  (generate_csv r.1, r.2, if r.2.failed_requests.length = 0 then 0 else 1)

/-- Endpoint that always answers 404, used for concrete counterexamples and
witnesses. -/
def alwaysNotFound : Int → String → Nat → Response :=
  fun _ _ _ => Response.http 404 none

/-! Helper lemmas shared by the claim theorems. -/

/-- Fuel-indexed bound on the total-request counter: starting from retry_count
rc ≤ MAX_RETRIES, fetch_name makes at most MAX_RETRIES + 1 - rc attempts. -/
theorem fetch_name_total_le_aux (resp : Nat → Response) (item_id : Int) (language : String) :
    ∀ (k rc : Nat) (st : FetchState), MAX_RETRIES + 1 - rc ≤ k → rc ≤ MAX_RETRIES →
      (fetch_name resp item_id language rc st).2.total_requests
        ≤ st.total_requests + (MAX_RETRIES + 1 - rc) := by
  intro k
  induction k with
  | zero =>
    intro rc st h1 h2
    omega
  | succ n ih =>
    intro rc st h1 h2
    rw [fetch_name]
    rcases hr : resp rc with ⟨status, name⟩ | _ | msg
    · simp only
      split_ifs with h429 hlt h404 h500 hlt2 h400
      · exact le_trans (ih (rc + 1) _ (by omega) (by omega)) (by simp; omega)
      · simp; omega
      · simp; omega
      · exact le_trans (ih (rc + 1) _ (by omega) (by omega)) (by simp; omega)
      · simp; omega
      · simp; omega
      · cases name with
        | none => simp; omega
        | some s => by_cases hs : s = "" <;> simp [hs] <;> omega
    · simp only
      split_ifs with hlt
      · exact le_trans (ih (rc + 1) _ (by omega) (by omega)) (by simp; omega)
      · simp; omega
    · simp; omega

/-- The keys of the association list built by fetch_langs are exactly the
language codes it iterated over, in order. -/
theorem fetch_langs_keys (endpoint : Int → String → Nat → Response) (item_id : Int) :
    ∀ (langs : List String) (st : FetchState),
      (fetch_langs endpoint item_id langs st).1.map Prod.fst = langs := by
  intro langs
  induction langs with
  | nil => intro st; rfl
  | cons lang rest ih => intro st; simp [fetch_langs, ih]

/-- The batch loop produces one record per item ID, in order. -/
theorem run_batch_itemIDs (endpoint : Int → String → Nat → Response) :
    ∀ (ids : List Int) (st : FetchState),
      (run_batch endpoint ids st).1.map DyeRecord.itemID = ids := by
  intro ids
  induction ids with
  | nil => intro st; rfl
  | cons i rest ih => intro st; simp [run_batch, ih]

/-- An association-list lookup succeeds for every key that occurs in the
list. -/
theorem lookup_isSome_of_mem_keys (l : List (String × Option String)) (a : String)
    (h : a ∈ l.map Prod.fst) : (l.lookup a).isSome := by
  induction l with
  | nil => simp at h
  | cons p rest ih =>
    rcases p with ⟨k, v⟩
    simp at h
    by_cases hk : a = k
    · simp [List.lookup, hk]
    · rcases h with h | h
      · exact absurd h hk
      · have hb : (a == k) = false := beq_eq_false_iff_ne.mpr hk
        simp [List.lookup, hb]
        exact h

/-- Every record built by the batch loop carries a names mapping whose keys
are exactly LANGUAGES. -/
theorem run_batch_names_keys (endpoint : Int → String → Nat → Response) :
    ∀ (ids : List Int) (st : FetchState) (r : DyeRecord),
      r ∈ (run_batch endpoint ids st).1 → r.names.map Prod.fst = LANGUAGES := by
  intro ids
  induction ids with
  | nil => intro st r h; simp [run_batch] at h
  | cons i rest ih =>
    intro st r h
    simp [run_batch] at h
    rcases h with h | h
    · subst h
      exact fetch_langs_keys endpoint i LANGUAGES _
    · exact ih _ r h

/-- load_dye_data keeps exactly the itemID values of the entries that have
one, in input order. -/
theorem load_dye_data_eq (input : List DyeEntry) :
    load_dye_data input = input.filterMap DyeEntry.itemID := by
  induction input with
  | nil => rfl
  | cons d rest ih =>
    cases hd : d.itemID <;> simp [load_dye_data, List.filterMap_cons, hd, ih]

/-! Claim theorems. -/

/-- C1: for every (itemID, language), if the endpoint returns 429 on the first
two attempts and a 2xx response with a (non-empty) Name on the third,
fetch_name retries twice with backoff waits 2 ^ 0 = 1 and 2 ^ 1 = 2 time
units (in that order), returns the name on the third attempt, and the
total-request counter increases by exactly three. -/
theorem fetch_name_429_twice_then_success (item_id : Int) (language : String)
    (nm : String) (st : FetchState) (h : nm ≠ "") :
    fetch_name (fun n => if n < 2 then Response.http 429 none
                         else Response.http 200 (some nm))
      item_id language 0 st =
    (some nm, { st with total_requests := st.total_requests + 3,
                        successful_requests := st.successful_requests + 1,
                        pacing_delays := st.pacing_delays + 3,
                        backoff_waits := st.backoff_waits ++ [1, 2] }) := by
  simp [fetch_name, h, MAX_RETRIES]

/-- Witness for C1 at item 5, language "en", name "Snow White", from a fresh
fetcher state. -/
theorem fetch_name_429_twice_then_success_witness :
    fetch_name (fun n => if n < 2 then Response.http 429 none
                         else Response.http 200 (some "Snow White"))
      5 "en" 0 initState =
    (some "Snow White",
     { initState with total_requests := initState.total_requests + 3,
                      successful_requests := initState.successful_requests + 1,
                      pacing_delays := initState.pacing_delays + 3,
                      backoff_waits := initState.backoff_waits ++ [1, 2] }) :=
  fetch_name_429_twice_then_success 5 "en" "Snow White" initState (by decide)

/-- C2: for every (itemID, language), if the endpoint returns HTTP 500 on
every attempt, fetch_name retries up to MAX_RETRIES, waiting 2 ^ attempt time
units before each retry (1, 2, 4), then returns none having appended exactly
one server-error entry to the failure list; four attempts in total. -/
theorem fetch_name_server_error_exhausts_retries (item_id : Int)
    (language : String) (st : FetchState) :
    fetch_name (fun _ => Response.http 500 none) item_id language 0 st =
    (none, { st with total_requests := st.total_requests + 4,
                     pacing_delays := st.pacing_delays + 4,
                     backoff_waits := st.backoff_waits ++ [1, 2, 4],
                     failed_requests := st.failed_requests ++
                       [(item_id, language, "Server error 500")] }) := by
  simp [fetch_name, MAX_RETRIES]
  rfl

/-- C3: for every endpoint behaviour, fetch_name terminates (it is a total
function of this development) and makes at most 1 + MAX_RETRIES = 4 HTTP
attempts per fetch call, measured on the total-request counter. -/
theorem fetch_name_attempt_bound (resp : Nat → Response) (item_id : Int)
    (language : String) (st : FetchState) :
    (fetch_name resp item_id language 0 st).2.total_requests
      ≤ st.total_requests + (1 + MAX_RETRIES)
    ∧ 1 + MAX_RETRIES = 4 := by
  refine ⟨?_, rfl⟩
  have h := fetch_name_total_le_aux resp item_id language (MAX_RETRIES + 1) 0 st
    (by omega) (by omega)
  omega

/-- C4: for every (itemID, language), on HTTP 404 fetch_name makes exactly one
request, appends exactly one not-found entry to the failure list, and returns
none; no retry and no backoff wait. -/
theorem fetch_name_not_found_no_retry (item_id : Int) (language : String)
    (st : FetchState) :
    fetch_name (fun _ => Response.http 404 none) item_id language 0 st =
    (none, { st with total_requests := st.total_requests + 1,
                     pacing_delays := st.pacing_delays + 1,
                     failed_requests := st.failed_requests ++
                       [(item_id, language, "Not found")] }) := by
  simp [fetch_name, MAX_RETRIES]

/-- C5: for every (itemID, language), if every attempt times out, fetch_name
retries up to the same maximum as the 429/5xx case (four attempts, hence four
pacing delays) with no backoff wait between attempts, then appends one timeout
failure entry and returns none. -/
theorem fetch_name_timeout_exhausts_retries (item_id : Int) (language : String)
    (st : FetchState) :
    fetch_name (fun _ => Response.timeout) item_id language 0 st =
    (none, { st with total_requests := st.total_requests + 4,
                     pacing_delays := st.pacing_delays + 4,
                     failed_requests := st.failed_requests ++
                       [(item_id, language, "Timeout")] }) := by
  simp [fetch_name, MAX_RETRIES]

/-- C6 (amended): if the loaded list of item IDs has no duplicates, then after
the batch loop each itemID in the list has exactly one record in the collected
data, and every collected record's names mapping has an entry (possibly none)
for every configured language code. -/
theorem run_batch_unique_record_per_id (endpoint : Int → String → Nat → Response)
    (ids : List Int) (st : FetchState) (hnd : ids.Nodup) :
    (∀ id, id ∈ ids →
      ((run_batch endpoint ids st).1.filter (fun r => r.itemID == id)).length = 1)
    ∧ (∀ r, r ∈ (run_batch endpoint ids st).1 →
        ∀ lang, lang ∈ LANGUAGES → ((r.names).lookup lang).isSome) := by
  constructor
  · intro id hid
    have hmap := run_batch_itemIDs endpoint ids st
    rw [← List.countP_eq_length_filter]
    have h1 : List.countP (fun r => r.itemID == id) (run_batch endpoint ids st).1
        = List.countP (· == id) ((run_batch endpoint ids st).1.map DyeRecord.itemID) := by
      rw [List.countP_map]
      rfl
    rw [h1, hmap]
    have := List.count_eq_one_of_mem hnd hid
    simpa [List.count] using this
  · intro r hr lang hlang
    exact lookup_isSome_of_mem_keys _ _
      (by rw [run_batch_names_keys endpoint ids st r hr]; exact hlang)

/-- Witness for C6 at the duplicate-free loaded list [5, 7] against an
endpoint that always answers 404. -/
theorem run_batch_unique_record_per_id_witness :
    ((run_batch alwaysNotFound [5, 7] initState).1.filter
      (fun r => r.itemID == 5)).length = 1 :=
  (run_batch_unique_record_per_id alwaysNotFound [5, 7] initState (by decide)).1
    5 (by decide)

/-- Counterexample to C6 as stated: the input array may repeat an itemID, and
then the loaded list [5, 5] produces two records whose itemID is 5, not
exactly one. -/
theorem run_batch_duplicate_ids_counterexample :
    load_dye_data [⟨some 5⟩, ⟨some 5⟩] = [5, 5]
    ∧ (5 : Int) ∈ ([5, 5] : List Int)
    ∧ ((run_batch alwaysNotFound [5, 5] initState).1.filter
         (fun r => r.itemID == 5)).length = 2 := by
  refine ⟨rfl, by decide, ?_⟩
  simp [run_batch, fetch_all_languages, fetch_langs, fetch_name, LANGUAGES,
        alwaysNotFound, initState, MAX_RETRIES]

/-- C7: for every input array and endpoint behaviour, the CSV starts with the
fixed header, its remaining rows are exactly one row per collected record in
order, the collected records correspond one-to-one and in input order to the
input elements that have an itemID field, and a row renders a present name in
its column and absent names as empty strings. -/
theorem generate_csv_spec (input : List DyeEntry)
    (endpoint : Int → String → Nat → Response) (st : FetchState) :
    (generate_csv (run_batch endpoint (load_dye_data input) st).1).head?
        = some CSV_HEADER
    ∧ (generate_csv (run_batch endpoint (load_dye_data input) st).1).tail
        = (run_batch endpoint (load_dye_data input) st).1.map csvRow
    ∧ (run_batch endpoint (load_dye_data input) st).1.map DyeRecord.itemID
        = input.filterMap DyeEntry.itemID
    ∧ (∀ (i : Int) (s : String),
        csvRow ⟨i, [("en", some s), ("ja", none), ("de", none), ("fr", none)]⟩
          = [toString i, s, "", "", ""])
    ∧ (∀ (i : Int),
        csvRow ⟨i, [("en", none), ("ja", none), ("de", none), ("fr", none)]⟩
          = [toString i, "", "", "", ""]) := by
  refine ⟨rfl, rfl, ?_, ?_, ?_⟩
  · rw [run_batch_itemIDs, load_dye_data_eq]
  · intro i s
    rfl
  · intro i
    rfl

/-- C8: for every run that completes the batch, the exit code is 1 exactly
when the failure list is non-empty and 0 exactly when it is empty, regardless
of which items or languages failed. -/
theorem main_exit_code (endpoint : Int → String → Nat → Response)
    (input : List DyeEntry) :
    ((main endpoint input).2.2 = 1 ↔ (main endpoint input).2.1.failed_requests ≠ [])
    ∧ ((main endpoint input).2.2 = 0 ↔ (main endpoint input).2.1.failed_requests = []) := by
  simp only [main]
  split_ifs with h
  · simp only [List.length_eq_zero] at h
    simp [h]
  · simp only [List.length_eq_zero] at h
    simp [h]

/-- C9: for every input array, load_dye_data keeps exactly the itemID values
of the elements that have one, in input order; an element lacking the field is
skipped and processing continues with the rest, while an element that has it
contributes its value. -/
theorem load_dye_data_spec (input : List DyeEntry) :
    load_dye_data input = input.filterMap DyeEntry.itemID
    ∧ (∀ (rest : List DyeEntry), load_dye_data (⟨none⟩ :: rest) = load_dye_data rest)
    ∧ (∀ (i : Int) (rest : List DyeEntry),
        load_dye_data (⟨some i⟩ :: rest) = i :: load_dye_data rest) := by
  refine ⟨load_dye_data_eq input, ?_, ?_⟩
  · intro rest
    rfl
  · intro i rest
    rfl

/-- C10: for every (itemID, language), a 2xx response whose "fields" object
maps "Name" to the empty string is treated like an absent name: fetch_name
returns none, appends a "Missing Name field" failure entry, and leaves the
success counter unchanged (the check is on truthiness, not key presence). -/
theorem fetch_name_empty_name_is_missing (item_id : Int) (language : String)
    (st : FetchState) :
    fetch_name (fun _ => Response.http 200 (some "")) item_id language 0 st =
    (none, { st with total_requests := st.total_requests + 1,
                     pacing_delays := st.pacing_delays + 1,
                     failed_requests := st.failed_requests ++
                       [(item_id, language, "Missing Name field")] }) := by
  simp [fetch_name, MAX_RETRIES]

end FetchDyeNames
